import Mathlib

set_option maxRecDepth 100000

/-!
Shallow embedding of the `mean-core` money-streaming program's binary codec
layer (src/program/src/instruction.rs, src/program/src/state.rs,
src/program/src/lib.rs) and proofs about it.

Modelling conventions:
* Rust byte slices (`&[u8]`, `Vec<u8>`) are `List Nat`, each element a byte
  value; theorems carry `< 256` bounds where they matter.
* Rust `u64` values are `Nat` (bounds `< 2^64` appear as hypotheses where the
  Rust type guarantees them).
* Rust `f64` fields are represented by their 64-bit IEEE-754 bit patterns as
  `Nat`: the codec only ever moves the 8 little-endian bytes of a float
  (`to_le_bytes` / `from_le_bytes`), never computes with it, so the bit
  pattern is a faithful representation of the field.
* Rust `Pubkey` (a 32-byte array) is a `List Nat` of length 32 (the length
  appears as a hypothesis where it matters).
* Rust `String` is the `List Nat` of its UTF-8 bytes; a constructible Rust
  `String` always satisfies `validUtf8`.
* A Rust function that can panic (`split_at` with an out-of-range index,
  `array_ref!` on a short slice, `copy_from_slice` with mismatched lengths)
  is modelled with an explicit `RResult.aborted` outcome, distinct from the
  typed `err` outcomes.
-/

/-- Little-endian byte encoding of `n` into `k` bytes, the model of
`u64::to_le_bytes` / `f64::to_le_bytes` (with `k = 8`). -/
def toLeBytes : Nat → Nat → List Nat
  | 0, _ => []
  | k + 1, n => n % 256 :: toLeBytes k (n / 256)

/-- Little-endian byte decoding, the model of `u64::from_le_bytes` /
`f64::from_le_bytes` (on the bit-pattern view of `f64`). -/
def fromLeBytes (l : List Nat) : Nat :=
  l.foldr (fun b acc => b + 256 * acc) 0

@[simp]
theorem toLeBytes_length (k n : Nat) : (toLeBytes k n).length = k := by
  induction k generalizing n with
  | zero => rfl
  | succ k ih => simp [toLeBytes, ih]

theorem fromLeBytes_toLeBytes (k n : Nat) (h : n < 256 ^ k) :
    fromLeBytes (toLeBytes k n) = n := by
  induction k generalizing n with
  | zero =>
    simp only [Nat.pow_zero, Nat.lt_one_iff] at h
    simp [h, toLeBytes, fromLeBytes]
  | succ k ih =>
    have hdiv : n / 256 < 256 ^ k := by
      rw [Nat.div_lt_iff_lt_mul (by norm_num)]
      calc n < 256 ^ (k + 1) := h
        _ = 256 ^ k * 256 := by ring
    simp only [toLeBytes, fromLeBytes, List.foldr_cons]
    have := ih (n / 256) hdiv
    simp only [fromLeBytes] at this
    rw [this]
    omega

/-- UTF-8 continuation byte test. -/
def utf8Cont (b : Nat) : Bool :=
  128 ≤ b && b ≤ 191

/-- Allowed range of the second byte of a multi-byte UTF-8 sequence given its
lead byte (the lead bytes 0xE0, 0xED, 0xF0 and 0xF4 restrict it; the rest
allow any continuation byte). -/
def utf8Snd (b c : Nat) : Bool :=
  if b = 0xE0 then 0xA0 ≤ c && c ≤ 0xBF
  else if b = 0xED then 0x80 ≤ c && c ≤ 0x9F
  else if b = 0xF0 then 0x90 ≤ c && c ≤ 0xBF
  else if b = 0xF4 then 0x80 ≤ c && c ≤ 0x8F
  else utf8Cont c

/-- UTF-8 two-byte lead byte test. -/
def utf8Lead2 (b : Nat) : Bool :=
  0xC2 ≤ b && b ≤ 0xDF

/-- UTF-8 three-byte lead byte test. -/
def utf8Lead3 (b : Nat) : Bool :=
  0xE0 ≤ b && b ≤ 0xEF

/-- UTF-8 four-byte lead byte test. -/
def utf8Lead4 (b : Nat) : Bool :=
  0xF0 ≤ b && b ≤ 0xF4

/-- UTF-8 encoding of U+FFFD REPLACEMENT CHARACTER. -/
def replacementChar : List Nat := [0xEF, 0xBF, 0xBD]

/-- Model of `String::from_utf8_lossy(bytes).to_string()` at the byte level:
valid UTF-8 sequences are copied, each maximal invalid subpart is replaced by
one U+FFFD. The result is the UTF-8 byte list of the produced string. -/
def from_utf8_lossy : List Nat → List Nat
  | [] => []
  | [b] => if b ≤ 0x7F then [b] else replacementChar
  | [b, c] =>
    if b ≤ 0x7F then b :: from_utf8_lossy [c]
    else if utf8Lead2 b then
      (if utf8Cont c then [b, c] else replacementChar ++ from_utf8_lossy [c])
    else if utf8Lead3 b || utf8Lead4 b then
      (if utf8Snd b c then replacementChar else replacementChar ++ from_utf8_lossy [c])
    else replacementChar ++ from_utf8_lossy [c]
  | [b, c, d] =>
    if b ≤ 0x7F then b :: from_utf8_lossy [c, d]
    else if utf8Lead2 b then
      (if utf8Cont c then b :: c :: from_utf8_lossy [d]
       else replacementChar ++ from_utf8_lossy [c, d])
    else if utf8Lead3 b then
      (if utf8Snd b c then
        (if utf8Cont d then [b, c, d] else replacementChar ++ from_utf8_lossy [d])
       else replacementChar ++ from_utf8_lossy [c, d])
    else if utf8Lead4 b then
      (if utf8Snd b c then
        (if utf8Cont d then replacementChar else replacementChar ++ from_utf8_lossy [d])
       else replacementChar ++ from_utf8_lossy [c, d])
    else replacementChar ++ from_utf8_lossy [c, d]
  | b :: c :: d :: e :: rest =>
    if b ≤ 0x7F then b :: from_utf8_lossy (c :: d :: e :: rest)
    else if utf8Lead2 b then
      (if utf8Cont c then b :: c :: from_utf8_lossy (d :: e :: rest)
       else replacementChar ++ from_utf8_lossy (c :: d :: e :: rest))
    else if utf8Lead3 b then
      (if utf8Snd b c then
        (if utf8Cont d then b :: c :: d :: from_utf8_lossy (e :: rest)
         else replacementChar ++ from_utf8_lossy (d :: e :: rest))
       else replacementChar ++ from_utf8_lossy (c :: d :: e :: rest))
    else if utf8Lead4 b then
      (if utf8Snd b c then
        (if utf8Cont d then
          (if utf8Cont e then b :: c :: d :: e :: from_utf8_lossy rest
           else replacementChar ++ from_utf8_lossy (e :: rest))
         else replacementChar ++ from_utf8_lossy (d :: e :: rest))
       else replacementChar ++ from_utf8_lossy (c :: d :: e :: rest))
    else replacementChar ++ from_utf8_lossy (c :: d :: e :: rest)

/-- Valid UTF-8 byte lists: exactly those on which lossy decoding is the
identity; a constructible Rust `String` always has valid UTF-8 bytes. -/
def validUtf8 : List Nat → Bool
  | [] => true
  | [b] => b ≤ 0x7F
  | [b, c] =>
    if b ≤ 0x7F then validUtf8 [c]
    else utf8Lead2 b && utf8Cont c
  | [b, c, d] =>
    if b ≤ 0x7F then validUtf8 [c, d]
    else if utf8Lead2 b then utf8Cont c && validUtf8 [d]
    else utf8Lead3 b && (utf8Snd b c && utf8Cont d)
  | b :: c :: d :: e :: rest =>
    if b ≤ 0x7F then validUtf8 (c :: d :: e :: rest)
    else if utf8Lead2 b then utf8Cont c && validUtf8 (d :: e :: rest)
    else if utf8Lead3 b then utf8Snd b c && (utf8Cont d && validUtf8 (e :: rest))
    else utf8Lead4 b && (utf8Snd b c && (utf8Cont d && (utf8Cont e && validUtf8 rest)))

theorem from_utf8_lossy_of_valid (l : List Nat) (h : validUtf8 l = true) :
    from_utf8_lossy l = l := by
  induction l using from_utf8_lossy.induct <;>
    simp_all [from_utf8_lossy, validUtf8, -Nat.not_le, -not_le]

/-- Modelled from the spec: the repository's `error` module declaring
`StreamError` is not under `src/` (only its uses are); §7 of the spec lists
the error kinds relevant to this core, reproduced here. Conversions via
`.into()` between `StreamError` and the host's program-error type are
modelled as the identity. -/
inductive StreamError where
  | InvalidStreamInstruction
  | InvalidArgument
  | InvalidStreamData
  | IncorrectProgramId
deriving DecidableEq

/-- Outcome of running a piece of Rust code that returns `Result<α, ε>` but
may also panic: `ok` and `err` are the `Result` outcomes, `aborted` models a
panic (e.g. `split_at` past the end of a slice, `array_ref!` on a short
slice, `copy_from_slice` with mismatched lengths). -/
inductive RResult (ε α : Type) where
  | ok (a : α) : RResult ε α
  | err (e : ε) : RResult ε α
  | aborted : RResult ε α
deriving DecidableEq

/-- Sequencing in `RResult`, the model of Rust's `?` operator: errors and
panics propagate. -/
def RResult.bind {ε α β : Type} : RResult ε α → (α → RResult ε β) → RResult ε β
  | .ok a, f => f a
  | .err e, _ => .err e
  | .aborted, _ => .aborted

@[simp]
theorem RResult.bind_ok {ε α β : Type} (a : α) (f : α → RResult ε β) :
    RResult.bind (.ok a) f = f a := rfl

@[simp]
theorem RResult.bind_err {ε α β : Type} (e : ε) (f : α → RResult ε β) :
    RResult.bind (.err e) f = .err e := rfl

@[simp]
theorem RResult.bind_aborted {ε α β : Type} (f : α → RResult ε β) :
    RResult.bind .aborted f = .aborted := rfl

/-- Whether an `RResult` is a success. -/
def RResult.isOk {ε α : Type} : RResult ε α → Bool
  | .ok _ => true
  | _ => false

/-- The instruction enum of `src/program/src/instruction.rs` (`StreamInstruction`),
with `f64` fields as bit patterns, `u64`/`u8` fields as `Nat`, `Pubkey` fields
as 32-byte lists and `String` fields as UTF-8 byte lists. -/
inductive StreamInstruction where
  | CreateStream
      (beneficiary_address : List Nat)
      (stream_name : List Nat)
      (funding_amount : Nat)
      (rate_amount : Nat)
      (rate_interval_in_seconds : Nat)
      (start_utc : Nat)
      (rate_cliff_in_seconds : Nat)
      (cliff_vest_amount : Nat)
      (cliff_vest_percent : Nat)
      (auto_pause_in_seconds : Nat)
  | AddFunds
      (contribution_amount : Nat)
      (resume : Bool)
  | RecoverFunds (recover_amount : Nat)
  | Withdraw (withdrawal_amount : Nat)
  | PauseStream
  | ResumeStream
  | ProposeUpdate
      (proposed_by : List Nat)
      (stream_name : List Nat)
      (treasurer_address : List Nat)
      (beneficiary_address : List Nat)
      (associated_token_address : List Nat)
      (rate_amount : Nat)
      (rate_interval_in_seconds : Nat)
      (rate_cliff_in_seconds : Nat)
      (cliff_vest_amount : Nat)
      (cliff_vest_percent : Nat)
      (auto_pause_in_seconds : Nat)
  | AnswerUpdate (approve : Bool)
  | CloseStream
  | CreateTreasury (nounce : Nat)
  | Transfer (amount : Nat)
deriving DecidableEq

namespace StreamInstruction

/-- Model of `StreamInstruction::pack`: tag byte, then the fields in
declaration order, numbers little-endian over 8 bytes (`nounce` over 1),
booleans as one byte 0/1, pubkeys and strings as their raw bytes. -/
def pack : StreamInstruction → List Nat
  | .CreateStream beneficiary_address stream_name funding_amount rate_amount
      rate_interval_in_seconds start_utc rate_cliff_in_seconds
      cliff_vest_amount cliff_vest_percent auto_pause_in_seconds =>
    0 :: (beneficiary_address ++ stream_name ++ toLeBytes 8 funding_amount ++
      toLeBytes 8 rate_amount ++ toLeBytes 8 rate_interval_in_seconds ++
      toLeBytes 8 start_utc ++ toLeBytes 8 rate_cliff_in_seconds ++
      toLeBytes 8 cliff_vest_amount ++ toLeBytes 8 cliff_vest_percent ++
      toLeBytes 8 auto_pause_in_seconds)
  | .AddFunds contribution_amount resume =>
    1 :: (toLeBytes 8 contribution_amount ++ [if resume then 1 else 0])
  | .RecoverFunds recover_amount =>
    2 :: toLeBytes 8 recover_amount
  | .Withdraw withdrawal_amount =>
    3 :: toLeBytes 8 withdrawal_amount
  | .PauseStream => [4]
  | .ResumeStream => [5]
  | .ProposeUpdate proposed_by stream_name treasurer_address
      beneficiary_address associated_token_address rate_amount
      rate_interval_in_seconds rate_cliff_in_seconds cliff_vest_amount
      cliff_vest_percent auto_pause_in_seconds =>
    6 :: (proposed_by ++ stream_name ++ treasurer_address ++
      beneficiary_address ++ associated_token_address ++
      toLeBytes 8 rate_amount ++ toLeBytes 8 rate_interval_in_seconds ++
      toLeBytes 8 rate_cliff_in_seconds ++ toLeBytes 8 cliff_vest_amount ++
      toLeBytes 8 cliff_vest_percent ++ toLeBytes 8 auto_pause_in_seconds)
  | .AnswerUpdate approve =>
    7 :: [if approve then 1 else 0]
  | .CloseStream => [8]
  | .CreateTreasury nounce =>
    9 :: toLeBytes 1 nounce
  | .Transfer amount =>
    10 :: toLeBytes 8 amount

/-- Model of Rust `slice::split_at: it panics (aborts) when the index
exceeds the slice length. -/
def split_at (n : Nat) (l : List Nat) : RResult StreamError (List Nat × List Nat) :=
  if n ≤ l.length then .ok (l.take n, l.drop n) else .aborted

/-- Model of `StreamInstruction::unpack_pubkey`. -/
def unpack_pubkey (input : List Nat) : RResult StreamError (List Nat × List Nat) :=
  if 32 ≤ input.length then .ok (input.take 32, input.drop 32)
  else .err .InvalidArgument

/-- Model of `StreamInstruction::unpack_string` (32 raw bytes decoded
lossily). -/
def unpack_string (input : List Nat) : RResult StreamError (List Nat × List Nat) :=
  if 32 ≤ input.length then .ok (from_utf8_lossy (input.take 32), input.drop 32)
  else .err .InvalidArgument

/-- Model of `StreamInstruction::unpack_u64` (`input.get(..8)` made into a
little-endian integer, `InvalidStreamInstruction` when fewer than 8 bytes
remain). -/
def unpack_u64 (input : List Nat) : RResult StreamError Nat :=
  if 8 ≤ input.length then .ok (fromLeBytes (input.take 8))
  else .err .InvalidStreamInstruction

/-- Model of `StreamInstruction::unpack_f64` (identical byte handling to
`unpack_u64`, producing the bit pattern of the float). -/
def unpack_f64 (input : List Nat) : RResult StreamError Nat :=
  if 8 ≤ input.length then .ok (fromLeBytes (input.take 8))
  else .err .InvalidStreamInstruction

/-- Model of the one-byte boolean decode used for `resume` and `approve`:
`[0]` is false, `[1]` is true, anything else is false. -/
def unpack_bool_permissive (l : List Nat) : Bool :=
  match l with
  | [0] => false
  | [1] => true
  | _ => false

/-- Model of `StreamInstruction::unpack_create_stream`. -/
def unpack_create_stream (input : List Nat) : RResult StreamError StreamInstruction :=
  (unpack_pubkey input).bind fun (beneficiary_address, result) =>
  (unpack_string result).bind fun (stream_name, result) =>
  (split_at 8 result).bind fun (fa, result) =>
  (unpack_f64 fa).bind fun funding_amount =>
  (split_at 8 result).bind fun (ra, result) =>
  (unpack_f64 ra).bind fun rate_amount =>
  (split_at 8 result).bind fun (ri, result) =>
  (unpack_u64 ri).bind fun rate_interval_in_seconds =>
  (split_at 8 result).bind fun (su, result) =>
  (unpack_u64 su).bind fun start_utc =>
  (split_at 8 result).bind fun (rc, result) =>
  (unpack_u64 rc).bind fun rate_cliff_in_seconds =>
  (split_at 8 result).bind fun (cva, result) =>
  (unpack_f64 cva).bind fun cliff_vest_amount =>
  (split_at 8 result).bind fun (cvp, result) =>
  (unpack_f64 cvp).bind fun cliff_vest_percent =>
  (split_at 8 result).bind fun (aps, _result) =>
  (unpack_u64 aps).bind fun auto_pause_in_seconds =>
  .ok (.CreateStream beneficiary_address stream_name funding_amount
    rate_amount rate_interval_in_seconds start_utc rate_cliff_in_seconds
    cliff_vest_amount cliff_vest_percent auto_pause_in_seconds)

/-- Model of `StreamInstruction::unpack_add_funds`. -/
def unpack_add_funds (input : List Nat) : RResult StreamError StreamInstruction :=
  (split_at 8 input).bind fun (ca, result) =>
  (unpack_f64 ca).bind fun contribution_amount =>
  (split_at 1 result).bind fun (r, _result) =>
  .ok (.AddFunds contribution_amount (unpack_bool_permissive r))

/-- Model of `StreamInstruction::unpack_recover_funds`. -/
def unpack_recover_funds (input : List Nat) : RResult StreamError StreamInstruction :=
  (split_at 8 input).bind fun (ra, _result) =>
  (unpack_f64 ra).bind fun recover_amount =>
  .ok (.RecoverFunds recover_amount)

/-- Model of `StreamInstruction::unpack_withdraw`. -/
def unpack_withdraw (input : List Nat) : RResult StreamError StreamInstruction :=
  (split_at 8 input).bind fun (wa, _result) =>
  (unpack_f64 wa).bind fun withdrawal_amount =>
  .ok (.Withdraw withdrawal_amount)

/-- Model of `StreamInstruction::unpack_propose_update`. -/
def unpack_propose_update (input : List Nat) : RResult StreamError StreamInstruction :=
  (unpack_pubkey input).bind fun (proposed_by, result) =>
  (unpack_string result).bind fun (stream_name, result) =>
  (unpack_pubkey result).bind fun (treasurer_address, result) =>
  (unpack_pubkey result).bind fun (beneficiary_address, result) =>
  (unpack_pubkey result).bind fun (associated_token_address, result) =>
  (split_at 8 result).bind fun (ra, result) =>
  (unpack_f64 ra).bind fun rate_amount =>
  (split_at 8 result).bind fun (ri, result) =>
  (unpack_u64 ri).bind fun rate_interval_in_seconds =>
  (split_at 8 result).bind fun (rc, result) =>
  (unpack_u64 rc).bind fun rate_cliff_in_seconds =>
  (split_at 8 result).bind fun (cva, result) =>
  (unpack_f64 cva).bind fun cliff_vest_amount =>
  (split_at 8 result).bind fun (cvp, result) =>
  (unpack_f64 cvp).bind fun cliff_vest_percent =>
  (split_at 8 result).bind fun (aps, _result) =>
  (unpack_u64 aps).bind fun auto_pause_in_seconds =>
  .ok (.ProposeUpdate proposed_by stream_name treasurer_address
    beneficiary_address associated_token_address rate_amount
    rate_interval_in_seconds rate_cliff_in_seconds cliff_vest_amount
    cliff_vest_percent auto_pause_in_seconds)

/-- Model of `StreamInstruction::unpack_answer_update`. -/
def unpack_answer_update (input : List Nat) : RResult StreamError StreamInstruction :=
  (split_at 1 input).bind fun (a, _result) =>
  .ok (.AnswerUpdate (unpack_bool_permissive a))

/-- Model of `StreamInstruction::unpack_create_treasury` (`split_first`,
`InvalidStreamInstruction` on empty input). -/
def unpack_create_treasury (input : List Nat) : RResult StreamError StreamInstruction :=
  match input with
  | [] => .err .InvalidStreamInstruction
  | nounce :: _result => .ok (.CreateTreasury nounce)

/-- Model of `StreamInstruction::unpack_transfer`. -/
def unpack_transfer (input : List Nat) : RResult StreamError StreamInstruction :=
  (split_at 8 input).bind fun (a, _result) =>
  (unpack_f64 a).bind fun amount =>
  .ok (.Transfer amount)

/-- Model of `StreamInstruction::unpack`: empty input fails with
`InvalidStreamInstruction`, otherwise the first byte selects the variant
decoder, tags outside 0-10 fail with `InvalidStreamInstruction`. -/
def unpack (instruction_data : List Nat) : RResult StreamError StreamInstruction :=
  match instruction_data with
  | [] => .err .InvalidStreamInstruction
  | tag :: result =>
    if tag = 0 then unpack_create_stream result
    else if tag = 1 then unpack_add_funds result
    else if tag = 2 then unpack_recover_funds result
    else if tag = 3 then unpack_withdraw result
    else if tag = 4 then .ok .PauseStream
    else if tag = 5 then .ok .ResumeStream
    else if tag = 6 then unpack_propose_update result
    else if tag = 7 then unpack_answer_update result
    else if tag = 8 then .ok .CloseStream
    else if tag = 9 then unpack_create_treasury result
    else if tag = 10 then unpack_transfer result
    else .err .InvalidStreamInstruction

end StreamInstruction

/-- Model of the strict one-byte boolean decode used by the state records'
`unpack_from_slice`: `[0]` is false, `[1]` is true, anything else fails with
`InvalidStreamData`. -/
def unpack_bool_strict (l : List Nat) : RResult StreamError Bool :=
  match l with
  | [0] => .ok false
  | [1] => .ok true
  | _ => .err .InvalidStreamData

namespace state

/-- The `StreamTerms` record of `src/program/src/state.rs`. -/
structure StreamTerms where
  initialized : Bool
  proposed_by : List Nat
  stream_name : List Nat
  treasurer_address : List Nat
  beneficiary_address : List Nat
  stream_associated_token : List Nat
  treasury_address : List Nat
  rate_amount : Nat
  rate_interval_in_seconds : Nat
  start_utc : Nat
  rate_cliff_in_seconds : Nat
deriving DecidableEq

namespace StreamTerms

/-- `StreamTerms::LEN`. -/
def LEN : Nat := 225

/-- Model of `impl Default for StreamTerms`: `String::default()` is the empty
string (no bytes), `Pubkey::default()` is 32 zero bytes, numbers are zero. -/
def default : StreamTerms where
  initialized := false
  proposed_by := List.replicate 32 0
  stream_name := []
  treasurer_address := List.replicate 32 0
  beneficiary_address := List.replicate 32 0
  stream_associated_token := List.replicate 32 0
  treasury_address := List.replicate 32 0
  rate_amount := 0
  rate_interval_in_seconds := 0
  start_utc := 0
  rate_cliff_in_seconds := 0

/-- Model of `StreamTerms::pack_into_slice`: the filled 225-byte buffer, or
`none` when a `copy_from_slice` into a fixed 32-byte region would panic
because the source is not exactly 32 bytes. -/
def pack_into_slice (t : StreamTerms) : Option (List Nat) :=
  if t.proposed_by.length = 32 ∧ t.stream_name.length = 32 ∧
      t.treasurer_address.length = 32 ∧ t.beneficiary_address.length = 32 ∧
      t.stream_associated_token.length = 32 ∧ t.treasury_address.length = 32 then
    some ((if t.initialized then [1] else [0]) ++ t.proposed_by ++
      t.stream_name ++ t.treasurer_address ++ t.beneficiary_address ++
      t.stream_associated_token ++ t.treasury_address ++
      toLeBytes 8 t.rate_amount ++ toLeBytes 8 t.rate_interval_in_seconds ++
      toLeBytes 8 t.start_utc ++ toLeBytes 8 t.rate_cliff_in_seconds)
  else none

/-- Model of `StreamTerms::unpack_from_slice`: `array_ref![input, 0, 225]`
panics (aborts) on a shorter buffer and reads only the first 225 bytes of a
longer one; the `initialized` byte must be exactly 0 or 1. -/
def unpack_from_slice (input : List Nat) : RResult StreamError StreamTerms :=
  if LEN ≤ input.length then
    let buf := input.take LEN
    (unpack_bool_strict (buf.take 1)).bind fun initialized =>
    .ok {
      initialized := initialized
      proposed_by := (buf.drop 1).take 32
      stream_name := from_utf8_lossy ((buf.drop 33).take 32)
      treasurer_address := (buf.drop 65).take 32
      beneficiary_address := (buf.drop 97).take 32
      stream_associated_token := (buf.drop 129).take 32
      treasury_address := (buf.drop 161).take 32
      rate_amount := fromLeBytes ((buf.drop 193).take 8)
      rate_interval_in_seconds := fromLeBytes ((buf.drop 201).take 8)
      start_utc := fromLeBytes ((buf.drop 209).take 8)
      rate_cliff_in_seconds := fromLeBytes ((buf.drop 217).take 8) }
  else .aborted

end StreamTerms

/-- The `Stream` record of `src/program/src/state.rs`. -/
structure Stream where
  initialized : Bool
  stream_name : List Nat
  treasurer_address : List Nat
  rate_amount : Nat
  rate_interval_in_seconds : Nat
  start_utc : Nat
  rate_cliff_in_seconds : Nat
  cliff_vest_amount : Nat
  cliff_vest_percent : Nat
  beneficiary_address : List Nat
  stream_associated_token : List Nat
  treasury_address : List Nat
  treasury_estimated_depletion_utc : Nat
  total_deposits : Nat
  total_withdrawals : Nat
  escrow_vested_amount_snap : Nat
  escrow_vested_amount_snap_block_height : Nat
  auto_pause_in_seconds : Nat
  is_streaming : Bool
deriving DecidableEq

namespace Stream

/-- `Stream::LEN`. -/
def LEN : Nat := 258

/-- Model of `impl Default for Stream`: empty name, zero ids and numbers,
`initialized = false` and `is_streaming = true`. -/
def default : Stream where
  initialized := false
  stream_name := []
  treasurer_address := List.replicate 32 0
  rate_amount := 0
  rate_interval_in_seconds := 0
  start_utc := 0
  rate_cliff_in_seconds := 0
  cliff_vest_amount := 0
  cliff_vest_percent := 0
  beneficiary_address := List.replicate 32 0
  stream_associated_token := List.replicate 32 0
  treasury_address := List.replicate 32 0
  treasury_estimated_depletion_utc := 0
  total_deposits := 0
  total_withdrawals := 0
  escrow_vested_amount_snap := 0
  escrow_vested_amount_snap_block_height := 0
  auto_pause_in_seconds := 0
  is_streaming := true

/-- Model of `Stream::pack_into_slice`: the filled 258-byte buffer, or `none`
when a `copy_from_slice` into a fixed 32-byte region would panic because the
source is not exactly 32 bytes. -/
def pack_into_slice (s : Stream) : Option (List Nat) :=
  if s.stream_name.length = 32 ∧ s.treasurer_address.length = 32 ∧
      s.beneficiary_address.length = 32 ∧
      s.stream_associated_token.length = 32 ∧
      s.treasury_address.length = 32 then
    some ((if s.initialized then [1] else [0]) ++ s.stream_name ++
      s.treasurer_address ++ toLeBytes 8 s.rate_amount ++
      toLeBytes 8 s.rate_interval_in_seconds ++ toLeBytes 8 s.start_utc ++
      toLeBytes 8 s.rate_cliff_in_seconds ++
      toLeBytes 8 s.cliff_vest_amount ++ toLeBytes 8 s.cliff_vest_percent ++
      s.beneficiary_address ++ s.stream_associated_token ++
      s.treasury_address ++ toLeBytes 8 s.treasury_estimated_depletion_utc ++
      toLeBytes 8 s.total_deposits ++ toLeBytes 8 s.total_withdrawals ++
      toLeBytes 8 s.escrow_vested_amount_snap ++
      toLeBytes 8 s.escrow_vested_amount_snap_block_height ++
      toLeBytes 8 s.auto_pause_in_seconds ++
      (if s.is_streaming then [1] else [0]))
  else none

/-- Model of `Stream::unpack_from_slice`: `array_ref![input, 0, 258]` panics
(aborts) on a shorter buffer and reads only the first 258 bytes of a longer
one; the `initialized` byte is checked first, then the `is_streaming` byte,
each must be exactly 0 or 1. -/
def unpack_from_slice (input : List Nat) : RResult StreamError Stream :=
  if LEN ≤ input.length then
    let buf := input.take LEN
    (unpack_bool_strict (buf.take 1)).bind fun initialized =>
    (unpack_bool_strict ((buf.drop 257).take 1)).bind fun is_streaming =>
    .ok {
      initialized := initialized
      stream_name := from_utf8_lossy ((buf.drop 1).take 32)
      treasurer_address := (buf.drop 33).take 32
      rate_amount := fromLeBytes ((buf.drop 65).take 8)
      rate_interval_in_seconds := fromLeBytes ((buf.drop 73).take 8)
      start_utc := fromLeBytes ((buf.drop 81).take 8)
      rate_cliff_in_seconds := fromLeBytes ((buf.drop 89).take 8)
      cliff_vest_amount := fromLeBytes ((buf.drop 97).take 8)
      cliff_vest_percent := fromLeBytes ((buf.drop 105).take 8)
      beneficiary_address := (buf.drop 113).take 32
      stream_associated_token := (buf.drop 145).take 32
      treasury_address := (buf.drop 177).take 32
      treasury_estimated_depletion_utc := fromLeBytes ((buf.drop 209).take 8)
      total_deposits := fromLeBytes ((buf.drop 217).take 8)
      total_withdrawals := fromLeBytes ((buf.drop 225).take 8)
      escrow_vested_amount_snap := fromLeBytes ((buf.drop 233).take 8)
      escrow_vested_amount_snap_block_height := fromLeBytes ((buf.drop 241).take 8)
      auto_pause_in_seconds := fromLeBytes ((buf.drop 249).take 8)
      is_streaming := is_streaming }
  else .aborted

end Stream

end state

/-- The program's own identity `id()` from `declare_id!` in
`src/program/src/lib.rs` (named `declared_id` here because `id` is taken):
the 32 bytes of base58 `2HEkjrj21DX2ecNQjAEUPKwr2pEnwSBjgi9GUHWtKnhH`. -/
def declared_id : List Nat :=
  [19, 4, 136, 29, 189, 227, 127, 184, 213, 39, 127, 110, 143, 70, 217, 218,
   110, 188, 19, 16, 31, 63, 187, 115, 194, 246, 212, 198, 189, 254, 151, 20]

/-- Model of `check_program_account` in `src/program/src/lib.rs`: an error
when the supplied program identity differs from the program's own, `Ok(())`
otherwise. -/
def check_program_account (program_id : List Nat) : RResult StreamError Unit :=
  if program_id ≠ declared_id then .err .IncorrectProgramId
  else .ok ()

/-- The SPL token program identity (`spl_token::id()`), the 32 bytes of
base58 `TokenkegQfeZyiNwAJbNbGKPFXCWuBvf9Ss623VQ5DA`. -/
def spl_token_id : List Nat :=
  [6, 221, 246, 225, 215, 101, 161, 147, 217, 203, 225, 70, 206, 235, 121,
   172, 28, 180, 133, 237, 95, 91, 55, 145, 58, 140, 245, 133, 126, 255, 0, 169]

/-- The system program identity (`solana_program::system_program::id()`),
all-zero bytes. -/
def system_program_id : List Nat := List.replicate 32 0

/-- The rent sysvar identity (`solana_program::sysvar::rent::id()`), the 32
bytes of base58 `SysvarRent111111111111111111111111111111111`. -/
def sysvar_rent_id : List Nat :=
  [6, 167, 213, 23, 25, 44, 92, 81, 33, 140, 201, 76, 61, 74, 241, 127, 88,
   218, 238, 8, 155, 161, 253, 68, 227, 219, 217, 138, 0, 0, 0, 0]

/-- Model of `solana_program::instruction::AccountMeta`. -/
structure AccountMeta where
  pubkey : List Nat
  is_signer : Bool
  is_writable : Bool
deriving DecidableEq

/-- `AccountMeta::new` (writable). -/
def AccountMeta.new (pubkey : List Nat) (is_signer : Bool) : AccountMeta :=
  { pubkey := pubkey, is_signer := is_signer, is_writable := true }

/-- `AccountMeta::new_readonly`. -/
def AccountMeta.new_readonly (pubkey : List Nat) (is_signer : Bool) : AccountMeta :=
  { pubkey := pubkey, is_signer := is_signer, is_writable := false }

/-- Model of `solana_program::instruction::Instruction`. -/
structure Instruction where
  program_id : List Nat
  accounts : List AccountMeta
  data : List Nat
deriving DecidableEq

/-- Model of the `create_stream` builder in `src/program/src/instruction.rs`.
The Rust code calls `check_program_account(program_id)` but discards its
`Result` (no `?`), which the model reproduces with a discarded `let`. -/
def create_stream (program_id : List Nat) (treasurer_address : List Nat)
    (treasurer_token_address : List Nat) (beneficiary_token_address : List Nat)
    (treasury_address : List Nat) (treasury_token_address : List Nat)
    (stream_address : List Nat) (mint_address : List Nat)
    (msp_ops_address : List Nat) (beneficiary_address : List Nat)
    (stream_name : List Nat) (funding_amount : Nat) (rate_amount : Nat)
    (rate_interval_in_seconds : Nat) (start_utc : Nat)
    (rate_cliff_in_seconds : Nat) (cliff_vest_amount : Nat)
    (cliff_vest_percent : Nat) (auto_pause_in_seconds : Nat) :
    RResult StreamError Instruction :=
  let _ := check_program_account program_id
  let data := (StreamInstruction.CreateStream beneficiary_address stream_name
    funding_amount rate_amount rate_interval_in_seconds start_utc
    rate_cliff_in_seconds cliff_vest_amount cliff_vest_percent
    auto_pause_in_seconds).pack
  let accounts := [
    AccountMeta.new_readonly treasurer_address true,
    AccountMeta.new treasurer_token_address false,
    AccountMeta.new beneficiary_token_address false,
    AccountMeta.new_readonly treasury_address false,
    AccountMeta.new treasury_token_address false,
    AccountMeta.new stream_address false,
    AccountMeta.new mint_address false,
    AccountMeta.new msp_ops_address false,
    AccountMeta.new_readonly program_id false,
    AccountMeta.new_readonly spl_token_id false,
    AccountMeta.new_readonly system_program_id false,
    AccountMeta.new_readonly sysvar_rent_id false]
  .ok { program_id := program_id, accounts := accounts, data := data }

/-- Model of the `add_funds` builder; the program-account check result is
discarded exactly as in the Rust. -/
def add_funds (program_id : List Nat) (stream_address : List Nat)
    (treasury_address : List Nat) (contribution_token_address : List Nat)
    (contribution_amount : Nat) (resume : Bool) :
    RResult StreamError Instruction :=
  let _ := check_program_account program_id
  let data := (StreamInstruction.AddFunds contribution_amount resume).pack
  let accounts := [
    AccountMeta.new contribution_token_address true,
    AccountMeta.new stream_address false,
    AccountMeta.new_readonly treasury_address false]
  .ok { program_id := program_id, accounts := accounts, data := data }

/-- Model of the `withdraw` builder; the program-account check result is
discarded exactly as in the Rust. -/
def withdraw (program_id : List Nat) (beneficiary_account_address : List Nat)
    (stream_account_address : List Nat) (treasury_account_address : List Nat)
    (withdrawal_amount : Nat) : RResult StreamError Instruction :=
  let _ := check_program_account program_id
  let data := (StreamInstruction.Withdraw withdrawal_amount).pack
  let accounts := [
    AccountMeta.new_readonly beneficiary_account_address false,
    AccountMeta.new stream_account_address false,
    AccountMeta.new_readonly treasury_account_address false]
  .ok { program_id := program_id, accounts := accounts, data := data }

/-- Model of the `close_stream` builder; the program-account check result is
discarded exactly as in the Rust. -/
def close_stream (initializer_account_key : List Nat)
    (stream_account_key : List Nat) (counterparty_account_key : List Nat)
    (treasury_account_key : List Nat) (program_id : List Nat) :
    RResult StreamError Instruction :=
  let _ := check_program_account program_id
  let data := StreamInstruction.CloseStream.pack
  let accounts := [
    AccountMeta.new initializer_account_key true,
    AccountMeta.new stream_account_key false,
    AccountMeta.new_readonly counterparty_account_key false,
    AccountMeta.new_readonly treasury_account_key false]
  .ok { program_id := program_id, accounts := accounts, data := data }

/-- Model of the `transfer` builder; the program-account check result is
discarded exactly as in the Rust. -/
def transfer (source_address : List Nat) (source_token_address : List Nat)
    (destination_token_address : List Nat) (mint_address : List Nat)
    (program_id : List Nat) (amount : Nat) : RResult StreamError Instruction :=
  let _ := check_program_account program_id
  let data := (StreamInstruction.Transfer amount).pack
  let accounts := [
    AccountMeta.new_readonly source_address true,
    AccountMeta.new source_token_address false,
    AccountMeta.new destination_token_address false,
    AccountMeta.new mint_address false,
    AccountMeta.new_readonly spl_token_id false]
  .ok { program_id := program_id, accounts := accounts, data := data }

namespace StreamInstruction

theorem split_at_of_le {n : Nat} {l : List Nat} (h : n ≤ l.length) :
    split_at n l = .ok (l.take n, l.drop n) := by
  simp [split_at, h]

theorem unpack_f64_of_le {l : List Nat} (h : 8 ≤ l.length) :
    unpack_f64 l = .ok (fromLeBytes (l.take 8)) := by
  simp [unpack_f64, h]

theorem unpack_u64_of_le {l : List Nat} (h : 8 ≤ l.length) :
    unpack_u64 l = .ok (fromLeBytes (l.take 8)) := by
  simp [unpack_u64, h]

theorem unpack_pubkey_of_le {l : List Nat} (h : 32 ≤ l.length) :
    unpack_pubkey l = .ok (l.take 32, l.drop 32) := by
  simp [unpack_pubkey, h]

theorem unpack_string_of_le {l : List Nat} (h : 32 ≤ l.length) :
    unpack_string l = .ok (from_utf8_lossy (l.take 32), l.drop 32) := by
  simp [unpack_string, h]

theorem unpack_withdraw_eval (l : List Nat) (h : 8 ≤ l.length) :
    unpack_withdraw l = .ok (.Withdraw (fromLeBytes (l.take 8))) := by
  simp [unpack_withdraw, split_at, unpack_f64, h, List.take_take,
    List.length_take, Nat.le_min]

theorem unpack_withdraw_ok_length (l : List Nat) (x : StreamInstruction)
    (h : unpack_withdraw l = .ok x) : 8 ≤ l.length := by
  by_contra hlen
  simp [unpack_withdraw, split_at, hlen] at h

theorem unpack_recover_funds_eval (l : List Nat) (h : 8 ≤ l.length) :
    unpack_recover_funds l = .ok (.RecoverFunds (fromLeBytes (l.take 8))) := by
  simp [unpack_recover_funds, split_at, unpack_f64, h, List.take_take,
    List.length_take, Nat.le_min]

theorem unpack_recover_funds_ok_length (l : List Nat) (x : StreamInstruction)
    (h : unpack_recover_funds l = .ok x) : 8 ≤ l.length := by
  by_contra hlen
  simp [unpack_recover_funds, split_at, hlen] at h

theorem unpack_transfer_eval (l : List Nat) (h : 8 ≤ l.length) :
    unpack_transfer l = .ok (.Transfer (fromLeBytes (l.take 8))) := by
  simp [unpack_transfer, split_at, unpack_f64, h, List.take_take,
    List.length_take, Nat.le_min]

theorem unpack_transfer_ok_length (l : List Nat) (x : StreamInstruction)
    (h : unpack_transfer l = .ok x) : 8 ≤ l.length := by
  by_contra hlen
  simp [unpack_transfer, split_at, hlen] at h

theorem unpack_add_funds_eval (l : List Nat) (h : 9 ≤ l.length) :
    unpack_add_funds l = .ok (.AddFunds (fromLeBytes (l.take 8))
      (unpack_bool_permissive ((l.drop 8).take 1))) := by
  rw [unpack_add_funds]
  rw [split_at_of_le (by omega)]
  simp only [RResult.bind_ok]
  rw [unpack_f64_of_le (by simp [List.length_take]; omega)]
  simp only [RResult.bind_ok, List.take_take, Nat.min_self]
  rw [split_at_of_le (by simp [List.length_drop]; omega)]
  simp only [RResult.bind_ok]

theorem unpack_add_funds_ok_length (l : List Nat) (x : StreamInstruction)
    (h : unpack_add_funds l = .ok x) : 9 ≤ l.length := by
  simp only [unpack_add_funds, split_at, unpack_f64] at h
  repeat' first
  | omega
  | (split_ifs at h <;> simp_all [List.length_take, List.length_drop])

theorem unpack_answer_update_eval (l : List Nat) (h : 1 ≤ l.length) :
    unpack_answer_update l = .ok (.AnswerUpdate
      (unpack_bool_permissive (l.take 1))) := by
  simp [unpack_answer_update, split_at, h]

theorem unpack_answer_update_ok_length (l : List Nat) (x : StreamInstruction)
    (h : unpack_answer_update l = .ok x) : 1 ≤ l.length := by
  by_contra hlen
  simp [unpack_answer_update, split_at, hlen] at h

theorem unpack_create_treasury_eval (b : Nat) (r : List Nat) :
    unpack_create_treasury (b :: r) = .ok (.CreateTreasury b) := rfl

theorem unpack_create_treasury_ok_length (l : List Nat) (x : StreamInstruction)
    (h : unpack_create_treasury l = .ok x) : 1 ≤ l.length := by
  cases l with
  | nil => simp [unpack_create_treasury] at h
  | cons b r => simp

theorem unpack_create_stream_eval (l : List Nat) (h : 128 ≤ l.length) :
    unpack_create_stream l = .ok (.CreateStream (l.take 32)
      (from_utf8_lossy ((l.drop 32).take 32))
      (fromLeBytes ((l.drop 64).take 8))
      (fromLeBytes ((l.drop 72).take 8))
      (fromLeBytes ((l.drop 80).take 8))
      (fromLeBytes ((l.drop 88).take 8))
      (fromLeBytes ((l.drop 96).take 8))
      (fromLeBytes ((l.drop 104).take 8))
      (fromLeBytes ((l.drop 112).take 8))
      (fromLeBytes ((l.drop 120).take 8))) := by
  have hlen : ∀ k : Nat, (l.drop k).length = l.length - k := by
    simp [List.length_drop]
  rw [unpack_create_stream]
  rw [unpack_pubkey_of_le (by omega)]
  simp only [RResult.bind_ok]
  rw [unpack_string_of_le (by rw [hlen]; omega)]
  repeat' first
  | rw [split_at_of_le (by rw [hlen]; omega)]
  | rw [unpack_f64_of_le (by simp [List.length_take, List.length_drop]; omega)]
  | rw [unpack_u64_of_le (by simp [List.length_take, List.length_drop]; omega)]
  | simp only [RResult.bind_ok, List.drop_drop, List.take_take, Nat.reduceAdd,
      Nat.min_self]

theorem unpack_create_stream_ok_length (l : List Nat) (x : StreamInstruction)
    (h : unpack_create_stream l = .ok x) : 128 ≤ l.length := by
  simp only [unpack_create_stream, unpack_pubkey, unpack_string, unpack_u64,
    unpack_f64, split_at] at h
  repeat' first
  | omega
  | (split_ifs at h <;> simp_all [List.length_take, List.length_drop])

theorem unpack_propose_update_eval (l : List Nat) (h : 208 ≤ l.length) :
    unpack_propose_update l = .ok (.ProposeUpdate (l.take 32)
      (from_utf8_lossy ((l.drop 32).take 32))
      ((l.drop 64).take 32)
      ((l.drop 96).take 32)
      ((l.drop 128).take 32)
      (fromLeBytes ((l.drop 160).take 8))
      (fromLeBytes ((l.drop 168).take 8))
      (fromLeBytes ((l.drop 176).take 8))
      (fromLeBytes ((l.drop 184).take 8))
      (fromLeBytes ((l.drop 192).take 8))
      (fromLeBytes ((l.drop 200).take 8))) := by
  have hlen : ∀ k : Nat, (l.drop k).length = l.length - k := by
    simp [List.length_drop]
  rw [unpack_propose_update]
  rw [unpack_pubkey_of_le (by omega)]
  simp only [RResult.bind_ok]
  rw [unpack_string_of_le (by rw [hlen]; omega)]
  repeat' first
  | rw [unpack_pubkey_of_le (by rw [hlen]; omega)]
  | rw [split_at_of_le (by rw [hlen]; omega)]
  | rw [unpack_f64_of_le (by simp [List.length_take, List.length_drop]; omega)]
  | rw [unpack_u64_of_le (by simp [List.length_take, List.length_drop]; omega)]
  | simp only [RResult.bind_ok, List.drop_drop, List.take_take, Nat.reduceAdd,
      Nat.min_self]

theorem unpack_propose_update_ok_length (l : List Nat) (x : StreamInstruction)
    (h : unpack_propose_update l = .ok x) : 208 ≤ l.length := by
  simp only [unpack_propose_update, unpack_pubkey, unpack_string, unpack_u64,
    unpack_f64, split_at] at h
  repeat' first
  | omega
  | (split_ifs at h <;> simp_all [List.length_take, List.length_drop])

end StreamInstruction

namespace StreamInstruction

theorem split_at_exact (a : List Nat) (n : Nat) (h : a.length = n) :
    split_at n a = .ok (a, []) := by
  subst h
  simp [split_at]

theorem split_at_append (a r : List Nat) (n : Nat) (h : a.length = n) :
    split_at n (a ++ r) = .ok (a, r) := by
  subst h
  simp [split_at, List.take_left, List.drop_left]

theorem unpack_f64_toLe (n : Nat) (h : n < 2 ^ 64) :
    unpack_f64 (toLeBytes 8 n) = .ok n := by
  have h8 : (toLeBytes 8 n).length = 8 := toLeBytes_length 8 n
  have hb : n < 256 ^ 8 := by norm_num at h ⊢; omega
  simp [unpack_f64, h8, List.take_of_length_le (le_of_eq h8),
    fromLeBytes_toLeBytes 8 n hb]

theorem unpack_bool_permissive_encode (b : Bool) :
    unpack_bool_permissive [if b then 1 else 0] = b := by
  cases b <;> rfl

/-- Validity of a `StreamInstruction` value of the model as the image of a
constructible Rust value whose `stream_name` fields hold exactly 32 bytes:
pubkeys are 32 bytes each below 256, names are 32 bytes of valid UTF-8,
`u64`/`f64` fields are below `2^64` and the `u8` nounce below 256. -/
def wf : StreamInstruction → Bool
  | .CreateStream bk name fa ra ri su rc cva cvp aps =>
    (bk.length == 32) &&
    (bk.all (fun b => decide (b < 256)) &&
    ((name.length == 32) &&
    (validUtf8 name &&
    (decide (fa < 2 ^ 64) &&
    (decide (ra < 2 ^ 64) &&
    (decide (ri < 2 ^ 64) &&
    (decide (su < 2 ^ 64) &&
    (decide (rc < 2 ^ 64) &&
    (decide (cva < 2 ^ 64) &&
    (decide (cvp < 2 ^ 64) &&
    decide (aps < 2 ^ 64)))))))))))
  | .AddFunds ca _ => decide (ca < 2 ^ 64)
  | .RecoverFunds ra => decide (ra < 2 ^ 64)
  | .Withdraw wa => decide (wa < 2 ^ 64)
  | .PauseStream => true
  | .ResumeStream => true
  | .ProposeUpdate pb name ta ba ata ra ri rc cva cvp aps =>
    (pb.length == 32) &&
    (pb.all (fun b => decide (b < 256)) &&
    ((name.length == 32) &&
    (validUtf8 name &&
    ((ta.length == 32) &&
    (ta.all (fun b => decide (b < 256)) &&
    ((ba.length == 32) &&
    (ba.all (fun b => decide (b < 256)) &&
    ((ata.length == 32) &&
    (ata.all (fun b => decide (b < 256)) &&
    (decide (ra < 2 ^ 64) &&
    (decide (ri < 2 ^ 64) &&
    (decide (rc < 2 ^ 64) &&
    (decide (cva < 2 ^ 64) &&
    (decide (cvp < 2 ^ 64) &&
    decide (aps < 2 ^ 64)))))))))))))))
  | .AnswerUpdate _ => true
  | .CloseStream => true
  | .CreateTreasury n => decide (n < 256)
  | .Transfer a => decide (a < 2 ^ 64)

theorem roundtrip_create_stream (bk name : List Nat)
    (fa ra ri su rc cva cvp aps : Nat)
    (hbk : bk.length = 32) (hn : name.length = 32) (hv : validUtf8 name = true)
    (h1 : fa < 2 ^ 64) (h2 : ra < 2 ^ 64) (h3 : ri < 2 ^ 64) (h4 : su < 2 ^ 64)
    (h5 : rc < 2 ^ 64) (h6 : cva < 2 ^ 64) (h7 : cvp < 2 ^ 64)
    (h8 : aps < 2 ^ 64) :
    unpack (pack (.CreateStream bk name fa ra ri su rc cva cvp aps)) =
      .ok (.CreateStream bk name fa ra ri su rc cva cvp aps) := by
  rw [pack]
  rw [unpack]
  simp only [if_pos rfl]
  rw [unpack_create_stream_eval _ (by simp [List.length_append, hbk, hn])]
  have e1 : fa < 256 ^ 8 := by norm_num at h1 ⊢; omega
  have e2 : ra < 256 ^ 8 := by norm_num at h2 ⊢; omega
  have e3 : ri < 256 ^ 8 := by norm_num at h3 ⊢; omega
  have e4 : su < 256 ^ 8 := by norm_num at h4 ⊢; omega
  have e5 : rc < 256 ^ 8 := by norm_num at h5 ⊢; omega
  have e6 : cva < 256 ^ 8 := by norm_num at h6 ⊢; omega
  have e7 : cvp < 256 ^ 8 := by norm_num at h7 ⊢; omega
  have e8 : aps < 256 ^ 8 := by norm_num at h8 ⊢; omega
  simp [List.drop_append_eq_append_drop, List.take_append_eq_append_take,
    List.drop_eq_nil_of_le, List.take_of_length_le, hbk, hn,
    from_utf8_lossy_of_valid,
    fromLeBytes_toLeBytes 8 fa e1, fromLeBytes_toLeBytes 8 ra e2,
    fromLeBytes_toLeBytes 8 ri e3, fromLeBytes_toLeBytes 8 su e4,
    fromLeBytes_toLeBytes 8 rc e5, fromLeBytes_toLeBytes 8 cva e6,
    fromLeBytes_toLeBytes 8 cvp e7, fromLeBytes_toLeBytes 8 aps e8, hv]

theorem roundtrip_propose_update (pb name ta ba ata : List Nat)
    (ra ri rc cva cvp aps : Nat)
    (hpb : pb.length = 32) (hn : name.length = 32) (hv : validUtf8 name = true)
    (hta : ta.length = 32) (hba : ba.length = 32) (hata : ata.length = 32)
    (h1 : ra < 2 ^ 64) (h2 : ri < 2 ^ 64) (h3 : rc < 2 ^ 64)
    (h4 : cva < 2 ^ 64) (h5 : cvp < 2 ^ 64) (h6 : aps < 2 ^ 64) :
    unpack (pack (.ProposeUpdate pb name ta ba ata ra ri rc cva cvp aps)) =
      .ok (.ProposeUpdate pb name ta ba ata ra ri rc cva cvp aps) := by
  rw [pack]
  rw [unpack]
  simp only [if_pos rfl, Nat.succ_ne_zero]
  norm_num
  rw [unpack_propose_update_eval _ (by
    simp [List.length_append, hpb, hn, hta, hba, hata])]
  have e1 : ra < 256 ^ 8 := by norm_num at h1 ⊢; omega
  have e2 : ri < 256 ^ 8 := by norm_num at h2 ⊢; omega
  have e3 : rc < 256 ^ 8 := by norm_num at h3 ⊢; omega
  have e4 : cva < 256 ^ 8 := by norm_num at h4 ⊢; omega
  have e5 : cvp < 256 ^ 8 := by norm_num at h5 ⊢; omega
  have e6 : aps < 256 ^ 8 := by norm_num at h6 ⊢; omega
  simp [List.drop_append_eq_append_drop, List.take_append_eq_append_take,
    List.drop_eq_nil_of_le, List.take_of_length_le, hpb, hn, hta, hba, hata,
    from_utf8_lossy_of_valid,
    fromLeBytes_toLeBytes 8 ra e1, fromLeBytes_toLeBytes 8 ri e2,
    fromLeBytes_toLeBytes 8 rc e3, fromLeBytes_toLeBytes 8 cva e4,
    fromLeBytes_toLeBytes 8 cvp e5, fromLeBytes_toLeBytes 8 aps e6, hv]

end StreamInstruction

/-- C1: for every constructible instruction value `x` whose `stream_name`
field (present in `CreateStream` and `ProposeUpdate`) holds exactly 32 bytes,
decoding the bytes produced by `pack` returns a value equal to `x`. The
claim's quantification over arbitrary-length stream names fails (see the
counterexample); the 32-byte restriction is what the wire format actually
round-trips. -/
theorem C1_instruction_roundtrip (x : StreamInstruction)
    (h : StreamInstruction.wf x = true) :
    StreamInstruction.unpack (StreamInstruction.pack x) = .ok x := by
  open StreamInstruction in
  cases x with
  | CreateStream bk name fa ra ri su rc cva cvp aps =>
    simp only [wf, Bool.and_eq_true, beq_iff_eq, decide_eq_true_eq] at h
    obtain ⟨hbk, -, hn, hv, h1, h2, h3, h4, h5, h6, h7, h8⟩ := h
    exact roundtrip_create_stream bk name fa ra ri su rc cva cvp aps
      hbk hn hv h1 h2 h3 h4 h5 h6 h7 h8
  | AddFunds ca resume =>
    simp only [wf, decide_eq_true_eq] at h
    have e : ca < 256 ^ 8 := by norm_num at h ⊢; omega
    rw [pack, unpack]
    norm_num
    rw [unpack_add_funds_eval _ (by simp)]
    simp [List.take_append_eq_append_take, List.drop_append_eq_append_drop,
      List.drop_eq_nil_of_le, List.take_of_length_le,
      fromLeBytes_toLeBytes 8 ca e, unpack_bool_permissive_encode]
  | RecoverFunds ra =>
    simp only [wf, decide_eq_true_eq] at h
    have e : ra < 256 ^ 8 := by norm_num at h ⊢; omega
    rw [pack, unpack]
    norm_num
    rw [unpack_recover_funds_eval _ (by simp)]
    simp [List.take_of_length_le, fromLeBytes_toLeBytes 8 ra e]
  | Withdraw wa =>
    simp only [wf, decide_eq_true_eq] at h
    have e : wa < 256 ^ 8 := by norm_num at h ⊢; omega
    rw [pack, unpack]
    norm_num
    rw [unpack_withdraw_eval _ (by simp)]
    simp [List.take_of_length_le, fromLeBytes_toLeBytes 8 wa e]
  | PauseStream => decide
  | ResumeStream => decide
  | ProposeUpdate pb name ta ba ata ra ri rc cva cvp aps =>
    simp only [wf, Bool.and_eq_true, beq_iff_eq, decide_eq_true_eq] at h
    obtain ⟨hpb, -, hn, hv, hta, -, hba, -, hata, -, h1, h2, h3, h4, h5, h6⟩ := h
    exact roundtrip_propose_update pb name ta ba ata ra ri rc cva cvp aps
      hpb hn hv hta hba hata h1 h2 h3 h4 h5 h6
  | AnswerUpdate approve =>
    rw [pack, unpack]
    norm_num
    rw [unpack_answer_update_eval _ (by simp)]
    simp [unpack_bool_permissive_encode]
  | CloseStream => decide
  | CreateTreasury n =>
    simp only [wf, decide_eq_true_eq] at h
    rw [pack, unpack]
    norm_num
    simp [toLeBytes, Nat.mod_eq_of_lt h, unpack_create_treasury]
  | Transfer a =>
    simp only [wf, decide_eq_true_eq] at h
    have e : a < 256 ^ 8 := by norm_num at h ⊢; omega
    rw [pack, unpack]
    norm_num
    rw [unpack_transfer_eval _ (by simp)]
    simp [List.take_of_length_le, fromLeBytes_toLeBytes 8 a e]

/-- Witness for C1 at a concrete `CreateStream` value with a 32-byte name. -/
theorem C1_instruction_roundtrip_witness :
    StreamInstruction.unpack (StreamInstruction.pack
      (.CreateStream (List.replicate 32 0) (List.replicate 32 97)
        1 2 3 4 5 6 7 8)) =
      .ok (.CreateStream (List.replicate 32 0) (List.replicate 32 97)
        1 2 3 4 5 6 7 8) :=
  C1_instruction_roundtrip
    (.CreateStream (List.replicate 32 0) (List.replicate 32 97) 1 2 3 4 5 6 7 8)
    (by decide)

/-- Counterexample for C1 as stated: a `CreateStream` whose `stream_name` is
empty does not round-trip; decoding its own encoding aborts (a `split_at`
panic) instead of returning the value. -/
theorem C1_counterexample :
    StreamInstruction.unpack (StreamInstruction.pack
      (.CreateStream (List.replicate 32 0) [] 0 0 0 0 0 0 0 0)) ≠
      .ok (.CreateStream (List.replicate 32 0) [] 0 0 0 0 0 0 0 0) := by
  decide

namespace StreamInstruction

theorem take_drop_append (l e : List Nat) (k w : Nat) (h : k + w ≤ l.length) :
    ((l ++ e).drop k).take w = (l.drop k).take w := by
  rw [List.drop_append_of_le_length (by omega),
      List.take_append_of_le_length (by simp [List.length_drop]; omega)]

theorem unpack_create_stream_append (l e : List Nat) (x : StreamInstruction)
    (h : unpack_create_stream l = .ok x) :
    unpack_create_stream (l ++ e) = .ok x := by
  have hlen := unpack_create_stream_ok_length l x h
  rw [unpack_create_stream_eval l hlen] at h
  rw [unpack_create_stream_eval _ (by simp [List.length_append]; omega)]
  rw [← h]
  rw [List.take_append_of_le_length (by omega),
      take_drop_append l e 32 32 (by omega), take_drop_append l e 64 8 (by omega),
      take_drop_append l e 72 8 (by omega), take_drop_append l e 80 8 (by omega),
      take_drop_append l e 88 8 (by omega), take_drop_append l e 96 8 (by omega),
      take_drop_append l e 104 8 (by omega),
      take_drop_append l e 112 8 (by omega),
      take_drop_append l e 120 8 (by omega)]

theorem unpack_propose_update_append (l e : List Nat) (x : StreamInstruction)
    (h : unpack_propose_update l = .ok x) :
    unpack_propose_update (l ++ e) = .ok x := by
  have hlen := unpack_propose_update_ok_length l x h
  rw [unpack_propose_update_eval l hlen] at h
  rw [unpack_propose_update_eval _ (by simp [List.length_append]; omega)]
  rw [← h]
  rw [List.take_append_of_le_length (by omega),
      take_drop_append l e 32 32 (by omega),
      take_drop_append l e 64 32 (by omega),
      take_drop_append l e 96 32 (by omega),
      take_drop_append l e 128 32 (by omega),
      take_drop_append l e 160 8 (by omega),
      take_drop_append l e 168 8 (by omega),
      take_drop_append l e 176 8 (by omega),
      take_drop_append l e 184 8 (by omega),
      take_drop_append l e 192 8 (by omega),
      take_drop_append l e 200 8 (by omega)]

theorem unpack_add_funds_append (l e : List Nat) (x : StreamInstruction)
    (h : unpack_add_funds l = .ok x) :
    unpack_add_funds (l ++ e) = .ok x := by
  have hlen := unpack_add_funds_ok_length l x h
  rw [unpack_add_funds_eval l hlen] at h
  rw [unpack_add_funds_eval _ (by simp [List.length_append]; omega)]
  rw [← h]
  rw [List.take_append_of_le_length (by omega),
      take_drop_append l e 8 1 (by omega)]

theorem unpack_recover_funds_append (l e : List Nat) (x : StreamInstruction)
    (h : unpack_recover_funds l = .ok x) :
    unpack_recover_funds (l ++ e) = .ok x := by
  have hlen := unpack_recover_funds_ok_length l x h
  rw [unpack_recover_funds_eval l hlen] at h
  rw [unpack_recover_funds_eval _ (by simp [List.length_append]; omega)]
  rw [← h, List.take_append_of_le_length (by omega)]

theorem unpack_withdraw_append (l e : List Nat) (x : StreamInstruction)
    (h : unpack_withdraw l = .ok x) :
    unpack_withdraw (l ++ e) = .ok x := by
  have hlen := unpack_withdraw_ok_length l x h
  rw [unpack_withdraw_eval l hlen] at h
  rw [unpack_withdraw_eval _ (by simp [List.length_append]; omega)]
  rw [← h, List.take_append_of_le_length (by omega)]

theorem unpack_transfer_append (l e : List Nat) (x : StreamInstruction)
    (h : unpack_transfer l = .ok x) :
    unpack_transfer (l ++ e) = .ok x := by
  have hlen := unpack_transfer_ok_length l x h
  rw [unpack_transfer_eval l hlen] at h
  rw [unpack_transfer_eval _ (by simp [List.length_append]; omega)]
  rw [← h, List.take_append_of_le_length (by omega)]

theorem unpack_answer_update_append (l e : List Nat) (x : StreamInstruction)
    (h : unpack_answer_update l = .ok x) :
    unpack_answer_update (l ++ e) = .ok x := by
  have hlen := unpack_answer_update_ok_length l x h
  rw [unpack_answer_update_eval l hlen] at h
  rw [unpack_answer_update_eval _ (by simp [List.length_append]; omega)]
  rw [← h, List.take_append_of_le_length (by omega)]

theorem unpack_create_treasury_append (l e : List Nat) (x : StreamInstruction)
    (h : unpack_create_treasury l = .ok x) :
    unpack_create_treasury (l ++ e) = .ok x := by
  cases l with
  | nil => simp [unpack_create_treasury] at h
  | cons b r => simpa [unpack_create_treasury] using h

end StreamInstruction

/-- C9: every variant decoder ignores trailing bytes beyond the fields it
consumes: any instruction byte string that decodes successfully still
decodes to the same value after appending arbitrary extra bytes. -/
theorem C9_trailing_bytes_ignored (data extra : List Nat)
    (x : StreamInstruction)
    (h : StreamInstruction.unpack data = .ok x) :
    StreamInstruction.unpack (data ++ extra) = .ok x := by
  open StreamInstruction in
  cases data with
  | nil => simp [unpack] at h
  | cons tag rest =>
    simp only [List.cons_append]
    rw [unpack] at h ⊢
    by_cases h0 : tag = 0
    · simp only [h0, if_pos rfl] at h ⊢
      exact unpack_create_stream_append _ _ _ h
    by_cases h1 : tag = 1
    · simp only [h0, h1, if_neg, if_pos rfl] at h ⊢
      exact unpack_add_funds_append _ _ _ h
    by_cases h2 : tag = 2
    · simp only [h0, h1, h2, if_neg, if_pos rfl] at h ⊢
      exact unpack_recover_funds_append _ _ _ h
    by_cases h3 : tag = 3
    · simp only [h0, h1, h2, h3, if_neg, if_pos rfl] at h ⊢
      exact unpack_withdraw_append _ _ _ h
    by_cases h4 : tag = 4
    · simp only [h0, h1, h2, h3, h4, if_neg, if_pos rfl] at h ⊢
      exact h
    by_cases h5 : tag = 5
    · simp only [h0, h1, h2, h3, h4, h5, if_neg, if_pos rfl] at h ⊢
      exact h
    by_cases h6 : tag = 6
    · simp only [h0, h1, h2, h3, h4, h5, h6, if_neg, if_pos rfl] at h ⊢
      exact unpack_propose_update_append _ _ _ h
    by_cases h7 : tag = 7
    · simp only [h0, h1, h2, h3, h4, h5, h6, h7, if_neg, if_pos rfl] at h ⊢
      exact unpack_answer_update_append _ _ _ h
    by_cases h8 : tag = 8
    · simp only [h0, h1, h2, h3, h4, h5, h6, h7, h8, if_neg, if_pos rfl] at h ⊢
      exact h
    by_cases h9 : tag = 9
    · simp only [h0, h1, h2, h3, h4, h5, h6, h7, h8, h9, if_neg, if_pos rfl] at h ⊢
      exact unpack_create_treasury_append _ _ _ h
    by_cases h10 : tag = 10
    · simp only [h0, h1, h2, h3, h4, h5, h6, h7, h8, h9, h10, if_neg,
        if_pos rfl] at h ⊢
      exact unpack_transfer_append _ _ _ h
    · simp [h0, h1, h2, h3, h4, h5, h6, h7, h8, h9, h10] at h

/-- Witness for C9: a `Withdraw` instruction with two junk bytes appended
decodes to the same value as without them. -/
theorem C9_trailing_bytes_ignored_witness :
    StreamInstruction.unpack ((3 :: List.replicate 8 0) ++ [7, 7]) =
      .ok (.Withdraw 0) :=
  C9_trailing_bytes_ignored (3 :: List.replicate 8 0) [7, 7] (.Withdraw 0)
    (by decide)

/-- C2: contrary to the claim, `unpack` is not total over its declared error
set: a `Withdraw` instruction whose payload is shorter than 8 bytes makes
`split_at(8)` panic (abort) before the guarded `unpack_u64`/`unpack_f64`
path — which does return `InvalidStreamInstruction` on short input, as the
second conjunct shows — can ever see the short slice. -/
theorem C2_withdraw_short_aborts :
    StreamInstruction.unpack [3] = .aborted ∧
    StreamInstruction.unpack_u64 (List.replicate 7 0) =
      .err .InvalidStreamInstruction := by
  decide

/-- Counterexample for C5 as stated: a `CreateStream` payload of exactly 120
bytes does not decode successfully; the decoder reads eight 8-byte numeric
fields (32+32+8*8 = 128 bytes), so a 120-byte payload aborts in `split_at`. -/
theorem C5_counterexample :
    StreamInstruction.unpack (0 :: List.replicate 120 0) = .aborted := by
  decide

/-- C5 (amended): decoding `CreateStream` with exactly the minimum required
payload length, which is 32+32+8*8 = 128 bytes (not 120 as the spec
miscounts), succeeds; one byte short aborts in `split_at` (a panic) rather
than returning `InvalidArgument` or `InvalidStreamInstruction`. -/
theorem C5_create_stream_boundary :
    StreamInstruction.unpack (0 :: List.replicate 128 0) =
      .ok (.CreateStream (List.replicate 32 0) (List.replicate 32 0)
        0 0 0 0 0 0 0 0) ∧
    StreamInstruction.unpack (0 :: List.replicate 127 0) = .aborted := by
  constructor <;> decide

/-- C7: `unpack` accepts every tag 0-10 given a well-formed payload and
returns `InvalidStreamInstruction` on empty input and on every tag in
11..=255. -/
theorem C7_tag_exhaustive :
    StreamInstruction.unpack [] = .err .InvalidStreamInstruction ∧
    (∀ t rest, 11 ≤ t → t ≤ 255 →
      StreamInstruction.unpack (t :: rest) = .err .InvalidStreamInstruction) ∧
    (StreamInstruction.unpack (0 :: List.replicate 128 0)).isOk = true ∧
    (StreamInstruction.unpack (1 :: List.replicate 9 0)).isOk = true ∧
    (StreamInstruction.unpack (2 :: List.replicate 8 0)).isOk = true ∧
    (StreamInstruction.unpack (3 :: List.replicate 8 0)).isOk = true ∧
    (StreamInstruction.unpack [4]).isOk = true ∧
    (StreamInstruction.unpack [5]).isOk = true ∧
    (StreamInstruction.unpack (6 :: List.replicate 208 0)).isOk = true ∧
    (StreamInstruction.unpack (7 :: [0])).isOk = true ∧
    (StreamInstruction.unpack [8]).isOk = true ∧
    (StreamInstruction.unpack (9 :: [0])).isOk = true ∧
    (StreamInstruction.unpack (10 :: List.replicate 8 0)).isOk = true := by
  refine ⟨by decide, ?_, by decide, by decide, by decide, by decide, by decide,
    by decide, by decide, by decide, by decide, by decide, by decide⟩
  intro t rest ht _
  rw [StreamInstruction.unpack]
  simp [show t ≠ 0 by omega, show t ≠ 1 by omega, show t ≠ 2 by omega,
    show t ≠ 3 by omega, show t ≠ 4 by omega, show t ≠ 5 by omega,
    show t ≠ 6 by omega, show t ≠ 7 by omega, show t ≠ 8 by omega,
    show t ≠ 9 by omega, show t ≠ 10 by omega]

/-- Witness for C7 at the concrete rejected tag 42. -/
theorem C7_tag_exhaustive_witness :
    StreamInstruction.unpack (42 :: [1, 2, 3]) =
      .err .InvalidStreamInstruction :=
  C7_tag_exhaustive.2.1 42 [1, 2, 3] (by decide) (by decide)

namespace state

/-- Validity of a model `StreamTerms` value as the image of a constructible
Rust value whose `stream_name` holds exactly 32 bytes. -/
def StreamTerms.wf (t : StreamTerms) : Bool :=
  (t.proposed_by.length == 32) &&
  ((t.stream_name.length == 32) &&
  (validUtf8 t.stream_name &&
  ((t.treasurer_address.length == 32) &&
  ((t.beneficiary_address.length == 32) &&
  ((t.stream_associated_token.length == 32) &&
  ((t.treasury_address.length == 32) &&
  (decide (t.rate_amount < 2 ^ 64) &&
  (decide (t.rate_interval_in_seconds < 2 ^ 64) &&
  (decide (t.start_utc < 2 ^ 64) &&
  decide (t.rate_cliff_in_seconds < 2 ^ 64))))))))))

/-- Validity of a model `Stream` value as the image of a constructible Rust
value whose `stream_name` holds exactly 32 bytes. -/
def Stream.wf (s : Stream) : Bool :=
  (s.stream_name.length == 32) &&
  (validUtf8 s.stream_name &&
  ((s.treasurer_address.length == 32) &&
  ((s.beneficiary_address.length == 32) &&
  ((s.stream_associated_token.length == 32) &&
  ((s.treasury_address.length == 32) &&
  (decide (s.rate_amount < 2 ^ 64) &&
  (decide (s.rate_interval_in_seconds < 2 ^ 64) &&
  (decide (s.start_utc < 2 ^ 64) &&
  (decide (s.rate_cliff_in_seconds < 2 ^ 64) &&
  (decide (s.cliff_vest_amount < 2 ^ 64) &&
  (decide (s.cliff_vest_percent < 2 ^ 64) &&
  (decide (s.treasury_estimated_depletion_utc < 2 ^ 64) &&
  (decide (s.total_deposits < 2 ^ 64) &&
  (decide (s.total_withdrawals < 2 ^ 64) &&
  (decide (s.escrow_vested_amount_snap < 2 ^ 64) &&
  (decide (s.escrow_vested_amount_snap_block_height < 2 ^ 64) &&
  decide (s.auto_pause_in_seconds < 2 ^ 64)))))))))))))))))

theorem StreamTerms.terms_roundtrip (t : StreamTerms) (h : StreamTerms.wf t = true) :
    (StreamTerms.pack_into_slice t).map StreamTerms.unpack_from_slice =
      some (.ok t) := by
  obtain ⟨init, pb, name, ta, ba, sat, tra, ra, ri, su, rc⟩ := t
  simp only [wf, Bool.and_eq_true, beq_iff_eq, decide_eq_true_eq] at h
  obtain ⟨hpb, hn, hv, hta, hba, hsat, htra, h1, h2, h3, h4⟩ := h
  have e1 : ra < 256 ^ 8 := by norm_num at h1 ⊢; omega
  have e2 : ri < 256 ^ 8 := by norm_num at h2 ⊢; omega
  have e3 : su < 256 ^ 8 := by norm_num at h3 ⊢; omega
  have e4 : rc < 256 ^ 8 := by norm_num at h4 ⊢; omega
  rw [pack_into_slice]
  rw [if_pos ⟨hpb, hn, hta, hba, hsat, htra⟩]
  rw [Option.map_some']
  rw [unpack_from_slice]
  rw [if_pos (by
    cases init <;>
      simp [LEN, List.length_append, hpb, hn, hta, hba, hsat, htra])]
  cases init <;>
    simp [LEN, List.take_append_eq_append_take, List.take_of_length_le,
      List.drop_append_eq_append_drop, List.drop_eq_nil_of_le,
      List.length_append, hpb, hn, hta, hba, hsat, htra,
      unpack_bool_strict, from_utf8_lossy_of_valid, hv,
      fromLeBytes_toLeBytes 8 ra e1, fromLeBytes_toLeBytes 8 ri e2,
      fromLeBytes_toLeBytes 8 su e3, fromLeBytes_toLeBytes 8 rc e4]

set_option maxHeartbeats 2000000 in
theorem Stream.stream_roundtrip (s : Stream) (h : Stream.wf s = true) :
    (Stream.pack_into_slice s).map Stream.unpack_from_slice =
      some (.ok s) := by
  obtain ⟨init, name, ta, ra, ri, su, rc, cva, cvp, ba, sat, tra, dep, td, tw,
    snap, sh, aps, streaming⟩ := s
  simp only [wf, Bool.and_eq_true, beq_iff_eq, decide_eq_true_eq] at h
  obtain ⟨hn, hv, hta, hba, hsat, htra, h1, h2, h3, h4, h5, h6, h7, h8, h9,
    h10, h11, h12⟩ := h
  have e1 : ra < 256 ^ 8 := by norm_num at h1 ⊢; omega
  have e2 : ri < 256 ^ 8 := by norm_num at h2 ⊢; omega
  have e3 : su < 256 ^ 8 := by norm_num at h3 ⊢; omega
  have e4 : rc < 256 ^ 8 := by norm_num at h4 ⊢; omega
  have e5 : cva < 256 ^ 8 := by norm_num at h5 ⊢; omega
  have e6 : cvp < 256 ^ 8 := by norm_num at h6 ⊢; omega
  have e7 : dep < 256 ^ 8 := by norm_num at h7 ⊢; omega
  have e8 : td < 256 ^ 8 := by norm_num at h8 ⊢; omega
  have e9 : tw < 256 ^ 8 := by norm_num at h9 ⊢; omega
  have e10 : snap < 256 ^ 8 := by norm_num at h10 ⊢; omega
  have e11 : sh < 256 ^ 8 := by norm_num at h11 ⊢; omega
  have e12 : aps < 256 ^ 8 := by norm_num at h12 ⊢; omega
  rw [pack_into_slice]
  rw [if_pos ⟨hn, hta, hba, hsat, htra⟩]
  rw [Option.map_some']
  rw [unpack_from_slice]
  rw [if_pos (by
    cases init <;> cases streaming <;>
      simp [LEN, List.length_append, hn, hta, hba, hsat, htra])]
  cases init <;> cases streaming <;>
    simp [LEN, List.take_append_eq_append_take, List.take_of_length_le,
      List.drop_append_eq_append_drop, List.drop_eq_nil_of_le,
      List.length_append, hn, hta, hba, hsat, htra,
      unpack_bool_strict, from_utf8_lossy_of_valid, hv,
      fromLeBytes_toLeBytes 8 ra e1, fromLeBytes_toLeBytes 8 ri e2,
      fromLeBytes_toLeBytes 8 su e3, fromLeBytes_toLeBytes 8 rc e4,
      fromLeBytes_toLeBytes 8 cva e5, fromLeBytes_toLeBytes 8 cvp e6,
      fromLeBytes_toLeBytes 8 dep e7, fromLeBytes_toLeBytes 8 td e8,
      fromLeBytes_toLeBytes 8 tw e9, fromLeBytes_toLeBytes 8 snap e10,
      fromLeBytes_toLeBytes 8 sh e11, fromLeBytes_toLeBytes 8 aps e12]

end state

/-- C3: for every valid `Stream` and `StreamTerms` value (32-byte names,
32-byte ids, in-range numeric fields), packing succeeds and unpacking the
packed buffer returns the original value. -/
theorem C3_state_roundtrip (s : state.Stream) (t : state.StreamTerms)
    (hs : state.Stream.wf s = true) (ht : state.StreamTerms.wf t = true) :
    (state.Stream.pack_into_slice s).map state.Stream.unpack_from_slice =
      some (.ok s) ∧
    (state.StreamTerms.pack_into_slice t).map
      state.StreamTerms.unpack_from_slice = some (.ok t) :=
  ⟨state.Stream.stream_roundtrip s hs, state.StreamTerms.terms_roundtrip t ht⟩

/-- A concrete valid `Stream` value used as a witness input. -/
def sampleStream : state.Stream where
  initialized := true
  stream_name := List.replicate 32 97
  treasurer_address := List.replicate 32 1
  rate_amount := 10
  rate_interval_in_seconds := 11
  start_utc := 12
  rate_cliff_in_seconds := 13
  cliff_vest_amount := 14
  cliff_vest_percent := 15
  beneficiary_address := List.replicate 32 2
  stream_associated_token := List.replicate 32 3
  treasury_address := List.replicate 32 4
  treasury_estimated_depletion_utc := 16
  total_deposits := 17
  total_withdrawals := 18
  escrow_vested_amount_snap := 19
  escrow_vested_amount_snap_block_height := 20
  auto_pause_in_seconds := 21
  is_streaming := false

/-- A concrete valid `StreamTerms` value used as a witness input. -/
def sampleTerms : state.StreamTerms where
  initialized := true
  proposed_by := List.replicate 32 5
  stream_name := List.replicate 32 98
  treasurer_address := List.replicate 32 6
  beneficiary_address := List.replicate 32 7
  stream_associated_token := List.replicate 32 8
  treasury_address := List.replicate 32 9
  rate_amount := 22
  rate_interval_in_seconds := 23
  start_utc := 24
  rate_cliff_in_seconds := 25

/-- Witness for C3 at concrete valid record values. -/
theorem C3_state_roundtrip_witness :
    (state.Stream.pack_into_slice sampleStream).map
      state.Stream.unpack_from_slice = some (.ok sampleStream) ∧
    (state.StreamTerms.pack_into_slice sampleTerms).map
      state.StreamTerms.unpack_from_slice = some (.ok sampleTerms) :=
  C3_state_roundtrip sampleStream sampleTerms (by decide) (by decide)

/-- Counterexample for C4 as stated: the all-zero 258-byte buffer with the
final `is_streaming` byte set to 1 does not unpack to `Stream::default()`:
the 32 zero name bytes decode to a 32-NUL-character string while the default
`stream_name` is the empty string. -/
theorem C4_counterexample :
    state.Stream.unpack_from_slice (List.replicate 257 0 ++ [1]) ≠
      .ok state.Stream.default := by
  decide

/-- C4 (amended): the all-zero 258-byte buffer with the final byte set to 1
unpacks to the default `Stream` value on every field except `stream_name`,
which becomes the 32-byte zero (NUL-filled) name rather than the default
empty string. -/
theorem C4_default_buffer :
    state.Stream.unpack_from_slice (List.replicate 257 0 ++ [1]) =
      .ok { state.Stream.default with stream_name := List.replicate 32 0 } := by
  decide

/-- C10: both state decoders read only the first `LEN` bytes, so appending
any suffix to a buffer of at least the declared length leaves the decode
result unchanged. -/
theorem C10_longer_buffers_ignored (b e b2 e2 : List Nat)
    (hb : 258 ≤ b.length) (hb2 : 225 ≤ b2.length) :
    state.Stream.unpack_from_slice (b ++ e) =
      state.Stream.unpack_from_slice b ∧
    state.StreamTerms.unpack_from_slice (b2 ++ e2) =
      state.StreamTerms.unpack_from_slice b2 := by
  constructor
  · rw [state.Stream.unpack_from_slice, state.Stream.unpack_from_slice,
      if_pos (show state.Stream.LEN ≤ (b ++ e).length by
        simp [state.Stream.LEN, List.length_append]; omega),
      if_pos (show state.Stream.LEN ≤ b.length from hb),
      List.take_append_of_le_length (show state.Stream.LEN ≤ b.length from hb)]
  · rw [state.StreamTerms.unpack_from_slice, state.StreamTerms.unpack_from_slice,
      if_pos (show state.StreamTerms.LEN ≤ (b2 ++ e2).length by
        simp [state.StreamTerms.LEN, List.length_append]; omega),
      if_pos (show state.StreamTerms.LEN ≤ b2.length from hb2),
      List.take_append_of_le_length
        (show state.StreamTerms.LEN ≤ b2.length from hb2)]

/-- Witness for C10 at concrete buffers. -/
theorem C10_longer_buffers_ignored_witness :
    state.Stream.unpack_from_slice (List.replicate 258 0 ++ [9]) =
      state.Stream.unpack_from_slice (List.replicate 258 0) ∧
    state.StreamTerms.unpack_from_slice (List.replicate 225 0 ++ [9]) =
      state.StreamTerms.unpack_from_slice (List.replicate 225 0) :=
  C10_longer_buffers_ignored (List.replicate 258 0) [9]
    (List.replicate 225 0) [9] (by decide) (by decide)

theorem unpack_bool_strict_zero : unpack_bool_strict [0] = .ok false := rfl

theorem unpack_bool_strict_one : unpack_bool_strict [1] = .ok true := rfl

theorem unpack_bool_strict_other (b : Nat) (h0 : b ≠ 0) (h1 : b ≠ 1) :
    unpack_bool_strict [b] = .err .InvalidStreamData := by
  cases b with
  | zero => exact absurd rfl h0
  | succ n =>
    cases n with
    | zero => exact absurd rfl h1
    | succ m => rfl

theorem unpack_bool_permissive_other (b : Nat) (h0 : b ≠ 0) (h1 : b ≠ 1) :
    StreamInstruction.unpack_bool_permissive [b] = false := by
  cases b with
  | zero => exact absurd rfl h0
  | succ n =>
    cases n with
    | zero => exact absurd rfl h1
    | succ m => rfl

/-- C6: boolean decoding strictness differs between state records and
instructions: any byte other than 0/1 in the `initialized` position (or the
`is_streaming` position, byte 257) of a state buffer fails with
`InvalidStreamData`, while the instruction booleans `resume` (`AddFunds`)
and `approve` (`AnswerUpdate`) decode such a byte as `false` without an
error. -/
theorem C6_bool_strictness_asymmetry (b : Nat) (h0 : b ≠ 0) (h1 : b ≠ 1) :
    (∀ rest : List Nat, 257 ≤ rest.length →
      state.Stream.unpack_from_slice (b :: rest) = .err .InvalidStreamData) ∧
    (∀ mid rest : List Nat, mid.length = 256 →
      state.Stream.unpack_from_slice (0 :: (mid ++ b :: rest)) =
        .err .InvalidStreamData) ∧
    (∀ rest : List Nat, 224 ≤ rest.length →
      state.StreamTerms.unpack_from_slice (b :: rest) =
        .err .InvalidStreamData) ∧
    (∀ amt rest : List Nat, amt.length = 8 →
      StreamInstruction.unpack_add_funds (amt ++ b :: rest) =
        .ok (.AddFunds (fromLeBytes amt) false)) ∧
    (∀ rest : List Nat,
      StreamInstruction.unpack_answer_update (b :: rest) =
        .ok (.AnswerUpdate false)) := by
  refine ⟨?_, ?_, ?_, ?_, ?_⟩
  · intro rest hr
    rw [state.Stream.unpack_from_slice,
      if_pos (by simp [state.Stream.LEN]; omega)]
    simp [state.Stream.LEN, List.take_take, unpack_bool_strict_other b h0 h1]
  · intro mid rest hmid
    rw [state.Stream.unpack_from_slice,
      if_pos (by simp [state.Stream.LEN, List.length_append, hmid]; omega)]
    simp [state.Stream.LEN, List.take_take, List.drop_take,
      List.drop_append_eq_append_drop, List.drop_eq_nil_of_le, hmid,
      unpack_bool_strict_zero, unpack_bool_strict_other b h0 h1]
  · intro rest hr
    rw [state.StreamTerms.unpack_from_slice,
      if_pos (by simp [state.StreamTerms.LEN]; omega)]
    simp [state.StreamTerms.LEN, List.take_take,
      unpack_bool_strict_other b h0 h1]
  · intro amt rest hamt
    rw [StreamInstruction.unpack_add_funds_eval _
      (by simp [List.length_append, hamt]; omega)]
    rw [List.take_append_of_le_length (by omega),
      List.take_of_length_le (by omega), List.drop_left' hamt]
    simp [unpack_bool_permissive_other b h0 h1]
  · intro rest
    rw [StreamInstruction.unpack_answer_update_eval _ (by simp)]
    simp [unpack_bool_permissive_other b h0 h1]

/-- Witness for C6 at the byte value 2. -/
theorem C6_bool_strictness_asymmetry_witness :
    state.Stream.unpack_from_slice (2 :: List.replicate 257 0) =
      .err .InvalidStreamData ∧
    StreamInstruction.unpack_answer_update [2] = .ok (.AnswerUpdate false) :=
  ⟨(C6_bool_strictness_asymmetry 2 (by decide) (by decide)).1
      (List.replicate 257 0) (by decide),
   (C6_bool_strictness_asymmetry 2 (by decide) (by decide)).2.2.2.2 []⟩

/-- C8: contrary to the claim, no instruction builder ever returns
`IncorrectProgramId`: each builder calls `check_program_account` — which
does produce that error for a wrong program identity, first conjunct — but
discards its `Result` (the call lacks `?`), so every builder returns
`Ok(Instruction)` even for a mismatched program id. -/
theorem C8_builders_ignore_program_id_check (pid : List Nat)
    (h : pid ≠ declared_id) :
    check_program_account pid = .err .IncorrectProgramId ∧
    (create_stream pid (List.replicate 32 0) (List.replicate 32 0)
      (List.replicate 32 0) (List.replicate 32 0) (List.replicate 32 0)
      (List.replicate 32 0) (List.replicate 32 0) (List.replicate 32 0)
      (List.replicate 32 0) (List.replicate 32 97) 0 0 0 0 0 0 0 0).isOk =
      true ∧
    (add_funds pid (List.replicate 32 0) (List.replicate 32 0)
      (List.replicate 32 0) 0 false).isOk = true ∧
    (withdraw pid (List.replicate 32 0) (List.replicate 32 0)
      (List.replicate 32 0) 0).isOk = true ∧
    (close_stream (List.replicate 32 0) (List.replicate 32 0)
      (List.replicate 32 0) (List.replicate 32 0) pid).isOk = true ∧
    (transfer (List.replicate 32 0) (List.replicate 32 0)
      (List.replicate 32 0) (List.replicate 32 0) pid 0).isOk = true := by
  refine ⟨?_, rfl, rfl, rfl, rfl, rfl⟩
  simp [check_program_account, h]

/-- Witness for C8 at the all-zero program id, which differs from the
declared one. -/
theorem C8_builders_ignore_program_id_check_witness :
    check_program_account (List.replicate 32 0) =
      .err .IncorrectProgramId ∧
    (withdraw (List.replicate 32 0) (List.replicate 32 0)
      (List.replicate 32 0) (List.replicate 32 0) 0).isOk = true :=
  ⟨(C8_builders_ignore_program_id_check (List.replicate 32 0) (by decide)).1,
   (C8_builders_ignore_program_id_check (List.replicate 32 0)
      (by decide)).2.2.2.1⟩
